import Mathlib

/-!
Verification of the abfi-ai dashboard's client-side data layer and chart
transformation functions, shallowly embedded from the TypeScript sources.

The query-cache engine itself lives in the external `@tanstack/react-query`
dependency; the repository only configures it (`src/dashboard/src/App.tsx`)
and declares queries with per-hook policies (`src/dashboard/src/hooks/useApi.ts`).
The cache semantics are therefore `Modelled from the spec` where marked, while
the hook keys/policies, the fetch layer and the rendering functions are
translated directly from the source files.
-/

namespace Abfi

/-- A query key: an ordered serializable tuple; two keys are equal iff their
serialized segments match (spec §3; in source, e.g. `['prices','history',feedstock,period]`). -/
abbrev QueryKey := List String

/-- Per-query policy attached at each hook call site
(`staleTime`, optional `refetchInterval`, `enabled`), as in `useApi.ts`. -/
structure Policy where
  staleTime : Nat
  refetchInterval : Option Nat
  enabled : Bool
deriving Repr, DecidableEq

/-- A declared query: key plus policy, i.e. the arguments a hook in
`useApi.ts` passes to `useQuery`.  The fetch function itself is abstracted:
its results enter the model through `resolve`. -/
structure QueryDecl where
  key : QueryKey
  policy : Policy
deriving Repr, DecidableEq

/-- Cached state for one key: the latest stored payload (abstracted to `Nat`)
and the time it was stored. `lastFetchedAt = none` means the entry is absent
(never successfully fetched). -/
structure QueryEntry where
  data : Option Nat
  lastFetchedAt : Option Nat
deriving Repr, DecidableEq

/-- Modelled from the spec: the query cache's shared state — one entry per
serialized key, the latest issued fetch id per key (spec §5 ordering
guarantees), the in-flight fetch per key (spec §4.1 request deduplication),
a fresh-id counter, and a count of network calls issued (for the testable
properties of spec §8). -/
structure CacheState where
  entries : QueryKey → QueryEntry
  latestId : QueryKey → Option Nat
  inFlight : QueryKey → Option Nat
  nextId : Nat
  fetchCount : Nat

/-- The cache as constructed at application start: no entries, nothing in flight. -/
def emptyCache : CacheState :=
  { entries := fun _ => { data := none, lastFetchedAt := none }
    latestId := fun _ => none
    inFlight := fun _ => none
    nextId := 0
    fetchCount := 0 }

/-- Modelled from the spec: "an entry is stale if `now - lastFetchedAt >
staleTimeMs`" (spec §4.1); an absent entry (never fetched) counts as stale,
since `subscribe` "triggers an immediate fetch if entry is absent or older
than staleTimeMs" (spec §4.1). -/
def isStale (e : QueryEntry) (now staleTime : Nat) : Bool :=
  match e.lastFetchedAt with
  | none => true
  | some t => decide (now - t > staleTime)

/-- Modelled from the spec: issue a network fetch for `k` — record a fresh
fetch id as both the latest issued id for `k` (spec §5: "track latest issued
fetch id per key") and the in-flight fetch for `k`, and count one network call. -/
def issueFetch (s : CacheState) (k : QueryKey) : CacheState :=
  { entries := s.entries
    latestId := fun q => if q = k then some s.nextId else s.latestId q
    inFlight := fun q => if q = k then some s.nextId else s.inFlight q
    nextId := s.nextId + 1
    fetchCount := s.fetchCount + 1 }

/-- Modelled from the spec: a subscription's fetch decision (spec §4.1–4.2).
Disabled queries never fetch; if a fetch for the key is already in flight the
subscriber is bound to it instead of issuing a duplicate call (request
deduplication); otherwise a fetch is issued exactly when the entry is absent
or stale.  Returns the new state and the fetch id the subscriber is bound to,
if any. -/
def subscribe (s : CacheState) (k : QueryKey) (p : Policy) (now : Nat) :
    CacheState × Option Nat :=
  if p.enabled then
    match s.inFlight k with
    | some j => (s, some j)
    | none =>
      if isStale (s.entries k) now p.staleTime then (issueFetch s k, some s.nextId)
      else (s, none)
  else (s, none)

/-- Modelled from the spec: a fetch resolution arriving for key `k` with fetch
id `id` and payload `result` at time `now`.  Per spec §5, a resolution from a
superseded fetch (one that is not the latest issued for `k`) is discarded;
otherwise the payload and timestamp are stored and the in-flight slot cleared. -/
def resolve (s : CacheState) (k : QueryKey) (id result now : Nat) : CacheState :=
  if s.latestId k = some id then
    { entries := fun q =>
        if q = k then { data := some result, lastFetchedAt := some now } else s.entries q
      latestId := s.latestId
      inFlight := fun q => if q = k then none else s.inFlight q
      nextId := s.nextId
      fetchCount := s.fetchCount }
  else s

/-! ### Hook declarations, from `src/dashboard/src/hooks/useApi.ts`.
JavaScript's `!!feedstock` on a string is `true` iff the string is nonempty. -/

/-- `usePriceHistory` (useApi.ts): key `['prices','history',feedstock,period]`,
`staleTime: 5 * 60 * 1000`, `enabled: !!feedstock`. -/
def usePriceHistory (feedstock period : String) : QueryDecl :=
  { key := ["prices", "history", feedstock, period]
    policy := { staleTime := 5 * 60 * 1000, refetchInterval := none
                enabled := !(feedstock == "") } }

/-- `useOhlcData` (useApi.ts): key `['prices','ohlc',commodity,period]`,
`staleTime: 5 * 60 * 1000`, `enabled: !!commodity`. -/
def useOhlcData (commodity period : String) : QueryDecl :=
  { key := ["prices", "ohlc", commodity, period]
    policy := { staleTime := 5 * 60 * 1000, refetchInterval := none
                enabled := !(commodity == "") } }

/-- `useForwardCurve` (useApi.ts): key `['prices','forward',commodity]`,
`staleTime: 5 * 60 * 1000`, `enabled: !!commodity`. -/
def useForwardCurve (commodity : String) : QueryDecl :=
  { key := ["prices", "forward", commodity]
    policy := { staleTime := 5 * 60 * 1000, refetchInterval := none
                enabled := !(commodity == "") } }

/-- `useRegionalHeatmap` (useApi.ts): key `['prices','heatmap',commodity]`,
`staleTime: 5 * 60 * 1000`, `enabled: !!commodity`. -/
def useRegionalHeatmap (commodity : String) : QueryDecl :=
  { key := ["prices", "heatmap", commodity]
    policy := { staleTime := 5 * 60 * 1000, refetchInterval := none
                enabled := !(commodity == "") } }

/-! ### Query client configuration, from `src/dashboard/src/App.tsx`. -/

/-- The query client's default query options: `staleTime` and the
window-refocus refetch flag. -/
structure QueryClientConfig where
  staleTime : Nat
  refetchOnWindowFocus : Bool
deriving Repr, DecidableEq

/-- Modelled from the spec: the flag's built-in default — the refocus
staleness check is "a configurable toggle, default on" (spec §4.2); the
toggle itself lives in the external query library, not under src. -/
def defaultQueryClientConfig : QueryClientConfig :=
  { staleTime := 0, refetchOnWindowFocus := true }

/-- The configuration the application installs (`App.tsx` lines 8–15):
`staleTime: 1000 * 60 * 5`, `refetchOnWindowFocus: false`. -/
def appQueryClientConfig : QueryClientConfig :=
  { staleTime := 1000 * 60 * 5, refetchOnWindowFocus := false }

/-- Modelled from the spec: on a window/tab refocus event the evaluator runs
the ordinary staleness check on a subscribed query exactly when the
`refetchOnWindowFocus` flag is on; with the flag off the event is ignored
(spec §4.2). -/
def onWindowRefocus (cfg : QueryClientConfig) (s : CacheState) (k : QueryKey)
    (p : Policy) (now : Nat) : CacheState × Option Nat :=
  if cfg.refetchOnWindowFocus then subscribe s k p now else (s, none)

/-! ### Fetch layer, from the api client source (`fetchApi`).
The platform's `Response` is embedded as status, status text, and the raw
response body text; `response.ok` is the Fetch standard's "status in the range
200–299"; `response.json()`'s parsing is the platform's, so the ok branch
returns the body as the payload. -/

/-- An HTTP response as the fetch layer sees it. -/
structure ApiResponse where
  status : Nat
  statusText : String
  bodyText : String
deriving Repr, DecidableEq

/-- `Response.ok` per the Fetch standard: status in the range 200–299. -/
def responseOk (r : ApiResponse) : Bool :=
  decide (200 ≤ r.status ∧ r.status ≤ 299)

/-- The error thrown by `fetchApi`: a JavaScript `Error` with a message. -/
structure ApiError where
  message : String
deriving Repr, DecidableEq

/-- `fetchApi` (api client source, lines 6–20): if `!response.ok`, throw
`new Error(\x7bAPI Error: $\x7bresponse.status\x7d $\x7bresponse.statusText\x7d\x7d)`;
otherwise return `response.json()`. -/
def fetchApi (r : ApiResponse) : Except ApiError String :=
  if responseOk r then Except.ok r.bodyText
  else Except.error
    { message := "API Error: " ++ toString r.status ++ " " ++ r.statusText }

/-! ### Candlestick/volume coloring, from `src/dashboard/src/pages/PricesDashboard.tsx`.
Prices are embedded as rationals. -/

/-- One OHLC bar as produced by `generateMockOHLCData` and consumed by the
candlestick and volume series (`open` is a Lean keyword, hence `open_`). -/
structure OhlcBar where
  time : String
  open_ : ℚ
  high : ℚ
  low : ℚ
  close : ℚ
deriving Repr, DecidableEq

/-- The bullish series color configured on the candlestick series
(`upColor: '#10b981'`, PricesDashboard.tsx line 58). -/
def upColor : String := "#10b981"

/-- The bearish series color configured on the candlestick series
(`downColor: '#ef4444'`, PricesDashboard.tsx line 59). -/
def downColor : String := "#ef4444"

/-- Modelled from the spec: the candlestick renderer "color-codes by
close≥open (bullish) vs close<open (bearish)" (spec §4.4); the up/down
selection itself happens inside the external `lightweight-charts` library,
configured in src with `upColor`/`downColor` above. -/
def candleColor (b : OhlcBar) : String :=
  if b.close ≥ b.open_ then upColor else downColor

/-- Volume bar color (PricesDashboard.tsx line 89):
`color: d.close >= d.open ? '#10b98133' : '#ef444433'`. -/
def volumeColor (b : OhlcBar) : String :=
  if b.close ≥ b.open_ then "#10b98133" else "#ef444433"

/-! ### Sparklines, from the Sparkline component source (`Sparkline`,
`TextSparkline`).  Series values are embedded as rationals. -/

/-- `Math.min(...data)` over a nonempty list (the components are only used on
nonempty series; the `[]` value is irrelevant to every theorem below). -/
def listMin : List ℚ → ℚ
  | [] => 0
  | x :: xs => xs.foldl min x

/-- `Math.max(...data)` over a nonempty list. -/
def listMax : List ℚ → ℚ
  | [] => 0
  | x :: xs => xs.foldl max x

/-- The 8-level block scale of `TextSparkline`:
`['▁', '▂', '▃', '▄', '▅', '▆', '▇', '█']`. -/
def blocks : List Char := ['▁', '▂', '▃', '▄', '▅', '▆', '▇', '█']

/-- The body of `TextSparkline`'s `data.map`: `normalized = (value - min) /
range`, `index = Math.floor(normalized * (blocks.length - 1))`, then
`blocks[index]` — embedded as `blocks.get? index` so that an out-of-range
index is observable as `none`. -/
def sparkGlyph (mn range v : ℚ) : Option Char :=
  blocks.get? (Int.toNat ⌊(v - mn) / range * (blocks.length - 1)⌋)

/-- `TextSparkline` (Sparkline component source, lines 40–51): `min`, `max`,
`range = max - min || 1`, one glyph per element. -/
def textSparkline (data : List ℚ) : List (Option Char) :=
  let mn := listMin data
  let mx := listMax data
  let range := if mx - mn = 0 then 1 else mx - mn
  data.map (sparkGlyph mn range)

/-- The glyph `TextSparkline` renders for one value of the series. -/
def textSparklineGlyph (data : List ℚ) (v : ℚ) : Option Char :=
  sparkGlyph (listMin data)
    (if listMax data - listMin data = 0 then 1 else listMax data - listMin data) v

/-- `trend = data[data.length - 1] - data[0]`, shared by `Sparkline` and
`TextSparkline` (JavaScript indexing embedded with `getD`; for a nonempty
list both indices are in range, so the default is never read). -/
def trendOf (data : List ℚ) : ℚ :=
  data.getD (data.length - 1) 0 - data.getD 0 0

/-- `Sparkline`'s stroke color (Sparkline component source, lines 18–20):
bullish if the trend is positive, bearish if negative, else the `color` prop. -/
def sparklineTrendColor (data : List ℚ) (color : String) : String :=
  if trendOf data > 0 then "var(--color-bullish)"
  else if trendOf data < 0 then "var(--color-bearish)"
  else color

/-- `TextSparkline`'s color class (Sparkline component source, lines 53–54). -/
def textSparklineColorClass (data : List ℚ) : String :=
  if trendOf data > 0 then "number-positive"
  else if trendOf data < 0 then "number-negative"
  else "number-neutral"

/-! ### Helper lemmas on folds, list ends and glyph bounds. -/

lemma foldl_min_le_init (xs : List ℚ) (a : ℚ) : xs.foldl min a ≤ a := by
  induction xs generalizing a with
  | nil => simp
  | cons x xs ih =>
      rw [List.foldl_cons]
      exact le_trans (ih (min a x)) (min_le_left a x)

lemma foldl_min_le_of_mem (xs : List ℚ) (a v : ℚ) (h : v ∈ xs) : xs.foldl min a ≤ v := by
  induction xs generalizing a with
  | nil => cases h
  | cons x xs ih =>
      rw [List.foldl_cons]
      rcases List.mem_cons.mp h with rfl | h'
      · exact le_trans (foldl_min_le_init xs (min a v)) (min_le_right a v)
      · exact ih (min a x) h'

lemma listMin_le_of_mem {data : List ℚ} {v : ℚ} (h : v ∈ data) : listMin data ≤ v := by
  match data, h with
  | x :: xs, h =>
      rcases List.mem_cons.mp h with rfl | h'
      · exact foldl_min_le_init xs v
      · exact foldl_min_le_of_mem xs x v h'

lemma le_foldl_max_init (xs : List ℚ) (a : ℚ) : a ≤ xs.foldl max a := by
  induction xs generalizing a with
  | nil => simp
  | cons x xs ih =>
      rw [List.foldl_cons]
      exact le_trans (le_max_left a x) (ih (max a x))

lemma le_foldl_max_of_mem (xs : List ℚ) (a v : ℚ) (h : v ∈ xs) : v ≤ xs.foldl max a := by
  induction xs generalizing a with
  | nil => cases h
  | cons x xs ih =>
      rw [List.foldl_cons]
      rcases List.mem_cons.mp h with rfl | h'
      · exact le_trans (le_max_right a v) (le_foldl_max_init xs (max a v))
      · exact ih (max a x) h'

lemma le_listMax_of_mem {data : List ℚ} {v : ℚ} (h : v ∈ data) : v ≤ listMax data := by
  match data, h with
  | x :: xs, h =>
      rcases List.mem_cons.mp h with rfl | h'
      · exact le_foldl_max_init xs v
      · exact le_foldl_max_of_mem xs x v h'

/-- The glyph lookup never runs off the block scale as long as the normalized
position is at most `1` (a negative floor truncates to index `0` via `toNat`). -/
lemma sparkGlyph_isSome {mn range v : ℚ}
    (h1 : (v - mn) / range ≤ 1) : (sparkGlyph mn range v).isSome = true := by
  have hlen : ((blocks.length : ℚ) - 1) = 7 := by norm_num [blocks]
  have hub : ⌊(v - mn) / range * ((blocks.length : ℚ) - 1)⌋ ≤ 7 := by
    rw [hlen]
    calc ⌊(v - mn) / range * (7 : ℚ)⌋ ≤ ⌊(7 : ℚ)⌋ :=
          Int.floor_le_floor (by nlinarith)
      _ = 7 := by norm_num
  have hidx : Int.toNat ⌊(v - mn) / range * ((blocks.length : ℚ) - 1)⌋ < blocks.length := by
    have := Int.toNat_le.mpr hub
    simp only [blocks, List.length] at this ⊢
    omega
  rw [sparkGlyph, List.get?_eq_get hidx]
  rfl

lemma foldl_min_replicate (n : Nat) (x : ℚ) : (List.replicate n x).foldl min x = x := by
  induction n with
  | zero => rfl
  | succ n ih => rw [List.replicate_succ, List.foldl_cons, min_self]; exact ih

lemma foldl_max_replicate (n : Nat) (x : ℚ) : (List.replicate n x).foldl max x = x := by
  induction n with
  | zero => rfl
  | succ n ih => rw [List.replicate_succ, List.foldl_cons, max_self]; exact ih

lemma listMin_replicate (n : Nat) (x : ℚ) : listMin (List.replicate (n + 1) x) = x := by
  rw [List.replicate_succ]; exact foldl_min_replicate n x

lemma listMax_replicate (n : Nat) (x : ℚ) : listMax (List.replicate (n + 1) x) = x := by
  rw [List.replicate_succ]; exact foldl_max_replicate n x

lemma getD_last_cons (x : ℚ) (xs : List ℚ) :
    (x :: xs).getD ((x :: xs).length - 1) 0
      = (x :: xs).getLast (List.cons_ne_nil x xs) := by
  induction xs generalizing x with
  | nil => rfl
  | cons y ys ih =>
      have hl : (x :: y :: ys).length - 1 = ((y :: ys).length - 1) + 1 := by simp
      rw [hl, List.getLast_cons_cons]
      simpa using ih y

lemma trendOf_cons (x : ℚ) (xs : List ℚ) :
    trendOf (x :: xs) = (x :: xs).getLast (List.cons_ne_nil x xs) - x := by
  rw [trendOf, getD_last_cons]
  rfl

lemma trendOf_eq_of_ends {d1 d2 : List ℚ} (h1 : d1 ≠ []) (h2 : d2 ≠ [])
    (hh : d1.head? = d2.head?) (hl : d1.getLast? = d2.getLast?) :
    trendOf d1 = trendOf d2 := by
  match d1, d2, h1, h2 with
  | x :: xs, y :: ys, _, _ =>
      have hx : x = y := by simpa using hh
      have hgl : (x :: xs).getLast (List.cons_ne_nil x xs)
          = (y :: ys).getLast (List.cons_ne_nil y ys) := by
        rw [List.getLast?_eq_getLast_of_ne_nil (List.cons_ne_nil x xs),
          List.getLast?_eq_getLast_of_ne_nil (List.cons_ne_nil y ys)] at hl
        exact Option.some.inj hl
      rw [trendOf_cons, trendOf_cons, hgl, hx]

/-! ### Claim theorems. -/

/-- C1: if fetch A for key `k` is issued, then fetch B for `k` is issued, and
B resolves before A, and A then resolves afterward, the cache's final entry
for `k` holds B's result: the resolution of the superseded fetch A (no longer
the latest issued id for `k`) is discarded and never overwrites B's data.
Here A carries id `s.nextId` and B carries id `(issueFetch s k).nextId`, for
an arbitrary starting state `s`. -/
theorem cache_superseded_resolution_discarded (s : CacheState) (k : QueryKey)
    (ra rb t1 t2 : Nat) :
    ((resolve (resolve (issueFetch (issueFetch s k) k) k
        (issueFetch s k).nextId rb t1) k s.nextId ra t2).entries k).data = some rb := by
  simp [resolve, issueFetch]

/-- C2: while a fetch for key `k` is in flight, a further subscription to `k`
issues no new network call and is bound to the same in-flight fetch; hence two
concurrent subscriptions to the same stale key issue exactly one network call
and both receive the one issued fetch id. -/
theorem cache_request_deduplication :
    (∀ (s : CacheState) (k : QueryKey) (p : Policy) (now j : Nat),
        p.enabled = true → s.inFlight k = some j → subscribe s k p now = (s, some j)) ∧
    (∀ (s : CacheState) (k : QueryKey) (p : Policy) (now now' : Nat),
        p.enabled = true → s.inFlight k = none →
        isStale (s.entries k) now p.staleTime = true →
        (subscribe (subscribe s k p now).1 k p now').1.fetchCount = s.fetchCount + 1 ∧
        (subscribe (subscribe s k p now).1 k p now').2 = some s.nextId ∧
        (subscribe s k p now).2 = some s.nextId) := by
  constructor
  · intro s k p now j he h
    simp [subscribe, he, h]
  · intro s k p now now' he h hs
    simp [subscribe, he, h, hs, issueFetch]

/-- Witness for C2: two subscriptions to a stale key in the empty cache issue
exactly one fetch and both are bound to fetch id `0`. -/
theorem cache_request_deduplication_witness :
    (subscribe (subscribe emptyCache ["prices", "kpis"]
        { staleTime := 60000, refetchInterval := some 30000, enabled := true } 0).1
      ["prices", "kpis"]
      { staleTime := 60000, refetchInterval := some 30000, enabled := true }
      5).1.fetchCount = emptyCache.fetchCount + 1 ∧
    (subscribe (subscribe emptyCache ["prices", "kpis"]
        { staleTime := 60000, refetchInterval := some 30000, enabled := true } 0).1
      ["prices", "kpis"]
      { staleTime := 60000, refetchInterval := some 30000, enabled := true }
      5).2 = some emptyCache.nextId ∧
    (subscribe emptyCache ["prices", "kpis"]
      { staleTime := 60000, refetchInterval := some 30000, enabled := true }
      0).2 = some emptyCache.nextId :=
  cache_request_deduplication.2 emptyCache ["prices", "kpis"]
    { staleTime := 60000, refetchInterval := some 30000, enabled := true } 0 5 rfl rfl rfl

/-- C3: `usePriceHistory` configures `staleTime = 300000`; an entry with a
fetch timestamp is stale iff `now - lastFetchedAt > 300000`; and for the key
`["prices","history","UCO","1M"]`: the first mount issues exactly one fetch,
a remount within 300 s of the resolution issues zero additional fetches, and
a remount after 300 s issues exactly one additional fetch. -/
theorem price_history_staleness_scenario :
    (∀ f period : String, (usePriceHistory f period).policy.staleTime = 300000) ∧
    (∀ (e : QueryEntry) (t now : Nat), e.lastFetchedAt = some t →
        (isStale e now 300000 = true ↔ now - t > 300000)) ∧
    (∀ t0 res : Nat,
        (subscribe emptyCache (usePriceHistory "UCO" "1M").key
            (usePriceHistory "UCO" "1M").policy t0).1.fetchCount = 1 ∧
        (∀ d, d ≤ 300000 →
          (subscribe
            (resolve (subscribe emptyCache (usePriceHistory "UCO" "1M").key
                (usePriceHistory "UCO" "1M").policy t0).1
              (usePriceHistory "UCO" "1M").key 0 res t0)
            (usePriceHistory "UCO" "1M").key (usePriceHistory "UCO" "1M").policy
            (t0 + d)).1.fetchCount = 1) ∧
        (∀ d, d > 300000 →
          (subscribe
            (resolve (subscribe emptyCache (usePriceHistory "UCO" "1M").key
                (usePriceHistory "UCO" "1M").policy t0).1
              (usePriceHistory "UCO" "1M").key 0 res t0)
            (usePriceHistory "UCO" "1M").key (usePriceHistory "UCO" "1M").policy
            (t0 + d)).1.fetchCount = 2)) := by
  refine ⟨fun f period => rfl, ?_, ?_⟩
  · intro e t now h
    simp [isStale, h]
  · intro t0 res
    refine ⟨?_, ?_, ?_⟩
    · simp [subscribe, usePriceHistory, emptyCache, isStale, issueFetch]
    · intro d hd
      have h1 : ¬ (300000 < d) := by omega
      simp [subscribe, usePriceHistory, emptyCache, isStale, issueFetch, resolve, h1]
    · intro d hd
      have h1 : 300000 < d := hd
      simp [subscribe, usePriceHistory, emptyCache, isStale, issueFetch, resolve, h1]

/-- Witness for C3: the scenario at `t0 = 1000`, remounts at `+300000` (fresh)
and `+300001` (stale), plus the staleness formula at a concrete entry. -/
theorem price_history_staleness_scenario_witness :
    (isStale { data := some 7, lastFetchedAt := some 1000 } 301001 300000 = true
      ↔ 301001 - 1000 > 300000) ∧
    (subscribe emptyCache (usePriceHistory "UCO" "1M").key
        (usePriceHistory "UCO" "1M").policy 1000).1.fetchCount = 1 ∧
    (subscribe
      (resolve (subscribe emptyCache (usePriceHistory "UCO" "1M").key
          (usePriceHistory "UCO" "1M").policy 1000).1
        (usePriceHistory "UCO" "1M").key 0 42 1000)
      (usePriceHistory "UCO" "1M").key (usePriceHistory "UCO" "1M").policy
      (1000 + 300000)).1.fetchCount = 1 ∧
    (subscribe
      (resolve (subscribe emptyCache (usePriceHistory "UCO" "1M").key
          (usePriceHistory "UCO" "1M").policy 1000).1
        (usePriceHistory "UCO" "1M").key 0 42 1000)
      (usePriceHistory "UCO" "1M").key (usePriceHistory "UCO" "1M").policy
      (1000 + 300001)).1.fetchCount = 2 :=
  ⟨price_history_staleness_scenario.2.1 _ 1000 301001 rfl,
   (price_history_staleness_scenario.2.2 1000 42).1,
   (price_history_staleness_scenario.2.2 1000 42).2.1 300000 (by omega),
   (price_history_staleness_scenario.2.2 1000 42).2.2 300001 (by omega)⟩

/-- C4: a query whose policy has `enabled = false` never issues a network
call, whatever the state and time; and the commodity-parameterised hooks
(`usePriceHistory`, `useOhlcData`, `useForwardCurve`, `useRegionalHeatmap`)
are disabled exactly in this way when their string parameter is empty, so
they issue zero fetches in every state. -/
theorem disabled_query_never_fetches :
    (∀ (s : CacheState) (k : QueryKey) (p : Policy) (now : Nat),
        p.enabled = false → subscribe s k p now = (s, none)) ∧
    (∀ period : String, (usePriceHistory "" period).policy.enabled = false) ∧
    (∀ period : String, (useOhlcData "" period).policy.enabled = false) ∧
    ((useForwardCurve "").policy.enabled = false) ∧
    ((useRegionalHeatmap "").policy.enabled = false) ∧
    (∀ (s : CacheState) (now : Nat) (period : String),
        subscribe s (usePriceHistory "" period).key (usePriceHistory "" period).policy now
          = (s, none) ∧
        subscribe s (useOhlcData "" period).key (useOhlcData "" period).policy now
          = (s, none)) := by
  refine ⟨?_, ?_, ?_, rfl, rfl, ?_⟩
  · intro s k p now h
    simp [subscribe, h]
  · intro period; rfl
  · intro period; rfl
  · intro s now period
    constructor <;> simp [subscribe, usePriceHistory, useOhlcData]

/-- Witness for C4: a disabled query and the empty-feedstock price-history
hook both leave the empty cache untouched. -/
theorem disabled_query_never_fetches_witness :
    subscribe emptyCache ["prices", "ohlc", "", "1Y"]
      { staleTime := 300000, refetchInterval := none, enabled := false } 99
      = (emptyCache, none) ∧
    subscribe emptyCache (usePriceHistory "" "1M").key
      (usePriceHistory "" "1M").policy 99 = (emptyCache, none) :=
  ⟨disabled_query_never_fetches.1 emptyCache ["prices", "ohlc", "", "1Y"]
      { staleTime := 300000, refetchInterval := none, enabled := false } 99 rfl,
   (disabled_query_never_fetches.2.2.2.2.2 emptyCache 99 "1M").1⟩

/-- C5 counterexample: `fetchApi` on a 500 response whose body is available
throws the error `"API Error: 500 Internal Server Error"`, which does not
contain the response body anywhere — so the thrown error does not carry the
response body, refuting the claim as stated. -/
theorem fetchApi_error_omits_body :
    fetchApi { status := 500, statusText := "Internal Server Error"
               bodyText := "boom-details" }
      = Except.error { message := "API Error: 500 Internal Server Error" } ∧
    ¬ List.IsInfix "boom-details".toList
        "API Error: 500 Internal Server Error".toList :=
  ⟨rfl, by decide⟩

/-- C5 (amended): `fetchApi` returns the response payload exactly when the
status is 2xx (`response.ok`, status 200–299), and otherwise throws a tagged
error carrying the HTTP status and status text (not the response body). -/
theorem fetchApi_status_partition (r : ApiResponse) :
    (responseOk r = true → fetchApi r = Except.ok r.bodyText) ∧
    (responseOk r = false →
      fetchApi r = Except.error
        { message := "API Error: " ++ toString r.status ++ " " ++ r.statusText }) ∧
    (responseOk r = true ↔ 200 ≤ r.status ∧ r.status ≤ 299) := by
  refine ⟨fun h => by simp [fetchApi, h], fun h => by simp [fetchApi, h], ?_⟩
  simp [responseOk]

/-- Witness for C5: a 200 response yields its payload; a 404 response yields
the tagged error built from status and status text. -/
theorem fetchApi_status_partition_witness :
    fetchApi { status := 200, statusText := "OK", bodyText := "[1,2]" }
      = Except.ok "[1,2]" ∧
    fetchApi { status := 404, statusText := "Not Found", bodyText := "nope" }
      = Except.error { message := "API Error: 404 Not Found" } :=
  ⟨(fetchApi_status_partition _).1 rfl, (fetchApi_status_partition _).2.1 rfl⟩

/-- C6: the candlestick and volume renderers assign the bullish (green) color
iff `close ≥ open` and the bearish (red) color iff `close < open`; the bar
with open 100 / close 95 renders bearish, the bar with open 95 / close 100
renders bullish, and no field other than open and close affects the choice. -/
theorem candle_color_close_vs_open :
    (∀ b : OhlcBar,
        (b.close ≥ b.open_ → candleColor b = upColor ∧ volumeColor b = "#10b98133") ∧
        (b.close < b.open_ → candleColor b = downColor ∧ volumeColor b = "#ef444433")) ∧
    (candleColor { time := "", open_ := 100, high := 101, low := 94, close := 95 }
        = downColor ∧
      volumeColor { time := "", open_ := 100, high := 101, low := 94, close := 95 }
        = "#ef444433") ∧
    (candleColor { time := "", open_ := 95, high := 101, low := 94, close := 100 }
        = upColor ∧
      volumeColor { time := "", open_ := 95, high := 101, low := 94, close := 100 }
        = "#10b98133") ∧
    (∀ b b' : OhlcBar, b.open_ = b'.open_ → b.close = b'.close →
        candleColor b = candleColor b' ∧ volumeColor b = volumeColor b') := by
  refine ⟨?_, ?_, ?_, ?_⟩
  · intro b
    constructor
    · intro h; simp [candleColor, volumeColor, h]
    · intro h; simp [candleColor, volumeColor, not_le.mpr h]
  · constructor <;> norm_num [candleColor, volumeColor]
  · constructor <;> norm_num [candleColor, volumeColor]
  · intro b b' h1 h2
    simp [candleColor, volumeColor, h1, h2]

/-- Witness for C6: a bullish bar gets the up colors. -/
theorem candle_color_close_vs_open_witness :
    candleColor { time := "t", open_ := 1, high := 3, low := 0, close := 2 } = upColor ∧
    volumeColor { time := "t", open_ := 1, high := 3, low := 0, close := 2 }
      = "#10b98133" :=
  (candle_color_close_vs_open.1 _).1 (by norm_num)

/-- C7: the window-refocus staleness check is an explicit configurable flag
whose default is on: unless `refetchOnWindowFocus` is explicitly turned off,
a refocus event runs the staleness check on a subscribed query; with the flag
off (as the application's own configuration sets it) the event is ignored. -/
theorem refetch_on_window_focus_flag :
    defaultQueryClientConfig.refetchOnWindowFocus = true ∧
    (∀ (cfg : QueryClientConfig) (s : CacheState) (k : QueryKey) (p : Policy) (now : Nat),
        cfg.refetchOnWindowFocus ≠ false →
        onWindowRefocus cfg s k p now = subscribe s k p now) ∧
    (∀ (cfg : QueryClientConfig) (s : CacheState) (k : QueryKey) (p : Policy) (now : Nat),
        cfg.refetchOnWindowFocus = false → onWindowRefocus cfg s k p now = (s, none)) ∧
    appQueryClientConfig.refetchOnWindowFocus = false := by
  refine ⟨rfl, ?_, ?_, rfl⟩
  · intro cfg s k p now h
    simp [onWindowRefocus, Bool.of_not_eq_false h]
  · intro cfg s k p now h
    simp [onWindowRefocus, h]

/-- Witness for C7: under the default configuration a refocus performs the
staleness check; under the application's configuration it does nothing. -/
theorem refetch_on_window_focus_flag_witness :
    onWindowRefocus defaultQueryClientConfig emptyCache ["sentiment", "index"]
        { staleTime := 300000, refetchInterval := none, enabled := true } 7
      = subscribe emptyCache ["sentiment", "index"]
        { staleTime := 300000, refetchInterval := none, enabled := true } 7 ∧
    onWindowRefocus appQueryClientConfig emptyCache ["sentiment", "index"]
        { staleTime := 300000, refetchInterval := none, enabled := true } 7
      = (emptyCache, none) :=
  ⟨refetch_on_window_focus_flag.2.1 defaultQueryClientConfig emptyCache
      ["sentiment", "index"]
      { staleTime := 300000, refetchInterval := none, enabled := true } 7 (by decide),
   refetch_on_window_focus_flag.2.2.1 appQueryClientConfig emptyCache
      ["sentiment", "index"]
      { staleTime := 300000, refetchInterval := none, enabled := true } 7 rfl⟩

/-- C8: `TextSparkline` renders one block glyph per element; whenever the
series has a proper range (min < max), the glyph for value `v` is the block at
index `⌊(v - min) / (max - min) * 7⌋`, so the minimum maps to the lowest block
`'▁'` and the maximum to the highest block `'█'`. -/
theorem text_sparkline_quantization :
    (∀ data : List ℚ, (textSparkline data).length = data.length) ∧
    (∀ (data : List ℚ) (v : ℚ), listMin data < listMax data →
        textSparklineGlyph data v
          = blocks.get? (Int.toNat
              ⌊(v - listMin data) / (listMax data - listMin data) * 7⌋)) ∧
    (∀ data : List ℚ, listMin data < listMax data →
        textSparklineGlyph data (listMin data) = some '▁' ∧
        textSparklineGlyph data (listMax data) = some '█') ∧
    (∀ data : List ℚ, textSparkline data = data.map (textSparklineGlyph data)) := by
  refine ⟨?_, ?_, ?_, fun data => rfl⟩
  · intro data
    simp [textSparkline]
  · intro data v h
    have hne : listMax data - listMin data ≠ 0 := sub_ne_zero.mpr (ne_of_gt h)
    rw [textSparklineGlyph, if_neg hne, sparkGlyph]
    norm_num [blocks]
  · intro data h
    have hne : listMax data - listMin data ≠ 0 := sub_ne_zero.mpr (ne_of_gt h)
    constructor
    · rw [textSparklineGlyph, if_neg hne, sparkGlyph]
      norm_num [blocks]
    · rw [textSparklineGlyph, if_neg hne, sparkGlyph, div_self hne]
      norm_num [blocks]
      rfl

/-- Witness for C8: the quantization formula and the min/max endpoints on the
series `[0, 7]`. -/
theorem text_sparkline_quantization_witness :
    textSparklineGlyph [0, 7] 3
      = blocks.get? (Int.toNat
          ⌊((3 : ℚ) - listMin [0, 7]) / (listMax [0, 7] - listMin [0, 7]) * 7⌋) ∧
    textSparklineGlyph [0, 7] (listMin [0, 7]) = some '▁' ∧
    textSparklineGlyph [0, 7] (listMax [0, 7]) = some '█' :=
  ⟨text_sparkline_quantization.2.1 [0, 7] 3 (by norm_num [listMin, listMax]),
   (text_sparkline_quantization.2.2.1 [0, 7] (by norm_num [listMin, listMax])).1,
   (text_sparkline_quantization.2.2.1 [0, 7] (by norm_num [listMin, listMax])).2⟩

/-- C9: `Sparkline` and `TextSparkline` choose their trend color solely by
comparing the last element with the first: bullish/positive iff last > first,
bearish/negative iff last < first, and the default/neutral color iff they are
equal; two nonempty series with the same first and last elements always get
the same colors, so intermediate elements never affect the choice. -/
theorem sparkline_trend_color_first_last :
    (∀ (x : ℚ) (xs : List ℚ) (c : String),
        ((x :: xs).getLast (List.cons_ne_nil x xs) > x →
          sparklineTrendColor (x :: xs) c = "var(--color-bullish)" ∧
          textSparklineColorClass (x :: xs) = "number-positive") ∧
        ((x :: xs).getLast (List.cons_ne_nil x xs) < x →
          sparklineTrendColor (x :: xs) c = "var(--color-bearish)" ∧
          textSparklineColorClass (x :: xs) = "number-negative") ∧
        ((x :: xs).getLast (List.cons_ne_nil x xs) = x →
          sparklineTrendColor (x :: xs) c = c ∧
          textSparklineColorClass (x :: xs) = "number-neutral")) ∧
    (∀ (d1 d2 : List ℚ) (c : String), d1 ≠ [] → d2 ≠ [] →
        d1.head? = d2.head? → d1.getLast? = d2.getLast? →
        sparklineTrendColor d1 c = sparklineTrendColor d2 c ∧
        textSparklineColorClass d1 = textSparklineColorClass d2) := by
  constructor
  · intro x xs c
    refine ⟨?_, ?_, ?_⟩
    · intro h
      have ht : trendOf (x :: xs) > 0 := by rw [trendOf_cons]; linarith
      constructor <;> simp [sparklineTrendColor, textSparklineColorClass, ht]
    · intro h
      have ht : trendOf (x :: xs) < 0 := by rw [trendOf_cons]; linarith
      constructor <;>
        simp [sparklineTrendColor, textSparklineColorClass, ht, asymm ht,
          not_lt_of_lt ht]
    · intro h
      have ht : trendOf (x :: xs) = 0 := by rw [trendOf_cons]; linarith
      constructor <;> simp [sparklineTrendColor, textSparklineColorClass, ht]
  · intro d1 d2 c h1 h2 hh hl
    have ht := trendOf_eq_of_ends h1 h2 hh hl
    constructor <;> simp only [sparklineTrendColor, textSparklineColorClass, ht]

/-- Witness for C9: an upward series (last 3 > first 1) gets the bullish color
and positive class, regardless of the spike in the middle. -/
theorem sparkline_trend_color_first_last_witness :
    sparklineTrendColor [1, 9, 3] "var(--color-chart-1)" = "var(--color-bullish)" ∧
    textSparklineColorClass [1, 9, 3] = "number-positive" :=
  (sparkline_trend_color_first_last.1 1 [9, 3] "var(--color-chart-1)").1 (by norm_num)

/-- C10: `TextSparkline` is total on every nonempty series — every rendered
glyph is an actual block (the index never leaves the 8-element scale, the
`range = max - min || 1` fallback avoiding the zero divisor) — and every
element of a constant series renders as the lowest block `'▁'`. -/
theorem text_sparkline_total_nonempty :
    (∀ data : List ℚ, data ≠ [] → (textSparkline data).all Option.isSome = true) ∧
    (∀ (n : Nat) (x : ℚ),
        textSparkline (List.replicate (n + 1) x)
          = List.replicate (n + 1) (some '▁')) := by
  constructor
  · intro data hne
    rw [List.all_eq_true]
    intro g hg
    simp only [textSparkline, List.mem_map] at hg
    obtain ⟨v, hv, rfl⟩ := hg
    have hmn := listMin_le_of_mem hv
    have hmx := le_listMax_of_mem hv
    by_cases hc : listMax data - listMin data = 0
    · rw [if_pos hc]
      have hvm : v = listMin data := le_antisymm (by linarith [sub_eq_zero.mp hc]) hmn
      exact sparkGlyph_isSome (by rw [hvm]; norm_num)
    · rw [if_neg hc]
      have hlt : 0 < listMax data - listMin data :=
        lt_of_le_of_ne (sub_nonneg.mpr (le_trans hmn hmx)) (Ne.symm hc)
      exact sparkGlyph_isSome ((div_le_one hlt).mpr (by linarith))
  · intro n x
    simp only [textSparkline, listMin_replicate, listMax_replicate, sub_self,
      if_pos, List.map_replicate]
    have h : sparkGlyph x 1 x = some '▁' := by
      rw [sparkGlyph]
      norm_num [blocks]
    rw [h]

/-- Witness for C10: every glyph of the series `[3, 1, 2]` is an actual block. -/
theorem text_sparkline_total_nonempty_witness :
    (textSparkline [(3 : ℚ), 1, 2]).all Option.isSome = true :=
  text_sparkline_total_nonempty.1 [3, 1, 2] (by simp)

end Abfi
